import Mathlib

/-!
Shallow embedding of the PracticaAWS repository (serverless inventory pipeline)
and proofs about its claims.

The repository consists of three AWS Lambda handlers
(`lambdas/load_inventory`, `lambdas/get_inventory_api`,
`lambdas/notify_low_stock`) and three infrastructure scripts
(`infra/deploy.py`, `infra/destroy.py`, `infra/validate.py`).

Cloud-provider calls are modelled by passing their outcomes in explicitly
(as data) and by recording the calls a run issues as a trace; pure
computations (routing, CSV row handling, batching, threshold checks) are
translated directly from the Python source.
-/

/- ===================================================================
   lambdas/notify_low_stock/lambda_function.py
   =================================================================== -/

/-- The `NewImage` of a DynamoDB stream record, as read by the handler:
`new_image.get("Store", {}).get("S", "Unknown")` etc.  The `Count`
attribute's `"N"` field carries a numeric string in a real stream; it is
modelled here by its integer value (`int(...)` applied to it), `none`
when the attribute is absent. -/
structure StreamImage where
  store : Option String
  item : Option String
  countN : Option Int
  deriving Repr, DecidableEq

/-- One DynamoDB Streams record: `record["eventName"]` and
`record.get("dynamodb", {}).get("NewImage", {})`. -/
structure StreamRecord where
  eventName : String
  newImage : StreamImage
  deriving Repr, DecidableEq

/-- `LOW_STOCK_THRESHOLD = 50`. -/
def LOW_STOCK_THRESHOLD : Int := 50

/-- `store = new_image.get("Store", {}).get("S", "Unknown")`. -/
def imageStore (img : StreamImage) : String := img.store.getD "Unknown"

/-- `item = new_image.get("Item", {}).get("S", "Unknown")`. -/
def imageItem (img : StreamImage) : String := img.item.getD "Unknown"

/-- `count = int(new_image.get("Count", {}).get("N", 0))`: a missing
`Count` attribute defaults to `0`. -/
def imageCount (img : StreamImage) : Int := img.countN.getD 0

/-- One message published to SNS by `sns.publish(TopicArn=..., Subject=subject,
Message=message)`.  The subject is the exact f-string of the source; the
multi-line alert text is modelled by the data interpolated into it. -/
structure SnsMessage where
  subject : String
  store : String
  item : String
  count : Int
  deriving Repr, DecidableEq

/-- The message built for a qualifying record. -/
def mkAlert (img : StreamImage) : SnsMessage :=
  { subject := "[ALERTA] Stock bajo: " ++ imageItem img ++ " en " ++ imageStore img
    store := imageStore img
    item := imageItem img
    count := imageCount img }

/-- The messages published while processing one stream record: the body of
the `for i, record in enumerate(records)` loop.  INSERT/MODIFY with
`count < LOW_STOCK_THRESHOLD` publishes one message; every other case
publishes none. -/
def notifyRecord (r : StreamRecord) : List SnsMessage :=
  if r.eventName = "INSERT" ∨ r.eventName = "MODIFY" then
    if imageCount r.newImage < LOW_STOCK_THRESHOLD then [mkAlert r.newImage] else []
  else []

/-- Result of `lambda_handler` in notify_low_stock: the HTTP-style response
plus the list of SNS publications it performed (its side effects). -/
structure NotifyResult where
  statusCode : Nat
  notifiedCount : Nat
  published : List SnsMessage
  deriving Repr, DecidableEq

/-- `lambda_handler(event, context)` of notify_low_stock, over the
`event["Records"]` list.  `sns.publish` is modelled as always succeeding
(its own try/except only guards the network call). -/
def notifyHandler (records : List StreamRecord) : NotifyResult :=
  let published := records.flatMap notifyRecord
  { statusCode := 200, notifiedCount := published.length, published := published }

/-- Predicate for a record that triggers a notification. -/
def lowStockTrigger (r : StreamRecord) : Bool :=
  (r.eventName == "INSERT" || r.eventName == "MODIFY")
    && imageCount r.newImage < LOW_STOCK_THRESHOLD

/- ===================================================================
   lambdas/load_inventory/lambda_function.py
   =================================================================== -/

/-- Python `s.strip()`: surrounding whitespace removed (ASCII whitespace;
the exotic unicode space characters Python also strips are not
modelled). -/
def pyStrip (s : String) : String :=
  String.mk (((s.toList.dropWhile Char.isWhitespace).reverse.dropWhile
    Char.isWhitespace).reverse)

/-- Python `s.lower()` (ASCII case folding). -/
def pyLower (s : String) : String :=
  String.mk (s.toList.map Char.toLower)

/-- Value of a nonempty all-digit character list, `none` otherwise. -/
def digitsVal (cs : List Char) : Option Nat :=
  if !cs.isEmpty && cs.all Char.isDigit then
    some (cs.foldl (fun a c => a * 10 + (c.toNat - 48)) 0)
  else none

/-- Python `int(s)` on a string: surrounding whitespace stripped, an
optional single sign, then a nonempty digit run; anything else raises
ValueError (`none` here).  Digit-grouping underscores are not modelled. -/
def pyInt? (s : String) : Option Int :=
  match (pyStrip s).toList with
  | '+' :: rest => (digitsVal rest).map Int.ofNat
  | '-' :: rest => (digitsVal rest).map (fun n => -(n : Int))
  | cs => (digitsVal cs).map Int.ofNat

/-- One row produced by `csv.DictReader`: the dictionary lookups
`row["Store"]`, `row["Item"]`, `row["Count"]`, each `none` when the field
is missing (Python raises KeyError, caught by the per-row handler). -/
structure CsvRow where
  store : Option String
  item : Option String
  count : Option String
  deriving Repr, DecidableEq

/-- One item as written by `table.put_item(Item={"Store": ..., "Item": ...,
"Count": ...})`, also the shape returned by the query Lambda. -/
structure InvItem where
  store : String
  item : String
  count : Int
  deriving Repr, DecidableEq

/-- The body of the per-row `try`: `store = row["Store"].strip()`,
`item = row["Item"].strip()`, `count = int(row["Count"])`; any missing
field or non-numeric count raises, and the row is skipped. -/
def parseRow (r : CsvRow) : Option InvItem :=
  match r.store, r.item, r.count with
  | some s, some i, some c => (pyInt? c).map (fun n => ⟨pyStrip s, pyStrip i, n⟩)
  | _, _, _ => none

/-- The `for row in csv_reader` loop over one CSV file: returns the items
put into the table (in order) and the final `items_inserted` counter. -/
def loadRows (rows : List CsvRow) : List InvItem × Nat :=
  rows.foldl
    (fun st r =>
      match parseRow r with
      | some it => (st.1 ++ [it], st.2 + 1)
      | none => st)
    ([], 0)

/-- Body of the load_inventory response. -/
inductive LoadBody where
  | success (message : String) (items_inserted : Nat)
  | failure (error : String)
  deriving Repr, DecidableEq

/-- HTTP-style response of load_inventory. -/
structure LoadResponse where
  statusCode : Nat
  body : LoadBody
  deriving Repr, DecidableEq

/-- `lambda_handler(event, context)` of load_inventory.  Each element of
`files` is one S3 record of `event["Records"]`, already fetched and
parsed into its CSV rows (`s3.get_object` and `csv.DictReader` are
collapsed into the input).  `items_inserted` is assigned only inside the
per-record loop, modelled by an `Option Nat` that stays `none` when the
loop body never ran; referencing it then raises NameError, which the
outer `except` turns into a 500 response.  Returns the response together
with all items put into the table. -/
def loadHandler (files : List (List CsvRow)) : LoadResponse × List InvItem :=
  let final := files.foldl
    (fun (st : Option Nat × List InvItem) rows =>
      let (ins, n) := loadRows rows
      (some n, st.2 ++ ins))
    (none, [])
  match final.1 with
  | some n => ({ statusCode := 200, body := .success "CSV procesado exitosamente" n }, final.2)
  | none =>
      ({ statusCode := 500, body := .failure "name \x27items_inserted\x27 is not defined" },
        final.2)

/- ===================================================================
   lambdas/get_inventory_api/lambda_function.py
   =================================================================== -/

/-- Python `needle in hay` on strings. -/
def strContains (hay needle : String) : Bool :=
  decide (needle.toList <:+: hay.toList)

/-- Python `s.split(sep)` for a one-character separator, on character
lists: splitting "" gives [""], and every separator occurrence starts a
new piece. -/
def splitChar (sep : Char) : List Char → List (List Char)
  | [] => [[]]
  | c :: rest =>
      let r := splitChar sep rest
      if c = sep then [] :: r
      else
        match r with
        | h :: t => (c :: h) :: t
        | [] => [[c]]

/-- Python `path.split("/")`. -/
def pySplitSlash (s : String) : List String :=
  (splitChar '/' s.toList).map String.mk

/-- Python truthiness of a string-or-None value (`if store:`). -/
def pyTruthyStr (o : Option String) : Bool :=
  match o with
  | some s => !s.isEmpty
  | none => false

/-- JSON body of a get_inventory_api response: `json.dumps` of the
dictionaries built by the handler. -/
inductive ApiBody where
  | allItems (items : List InvItem) (count : Nat)
  | storeItems (store : String) (items : List InvItem) (count : Nat)
  | error (msg : String)
  deriving Repr, DecidableEq

/-- HTTP-style response of get_inventory_api. -/
structure ApiResponse where
  statusCode : Nat
  body : ApiBody
  deriving Repr, DecidableEq

/-- `get_all_items()`: a paginated `table.scan` collecting every item of
the table (pagination is exhaustive, so its result is the whole table),
returned with `count = len(items)`. -/
def get_all_items (table : List InvItem) : ApiResponse :=
  { statusCode := 200, body := .allItems table table.length }

/-- `get_items_by_store(store)`: a `table.query` on the partition key
`Store`, i.e. the items whose Store equals `store`, with
`count = len(items)`. -/
def get_items_by_store (table : List InvItem) (store : String) : ApiResponse :=
  let items := table.filter (fun it => it.store == store)
  { statusCode := 200, body := .storeItems store items items.length }

/-- The HTTP event as read by the handler: `event.get("rawPath", "")`,
`event.get("routeKey", "")`, and `event.get("pathParameters")` (a dict,
modelled as an association list, or absent/None). -/
structure ApiEvent where
  rawPath : String
  routeKey : String
  pathParameters : Option (List (String × String))
  deriving Repr, DecidableEq

/-- `lambda_handler(event, context)` of get_inventory_api, parameterised
by the table contents.  Follows the source line by line: store from
`pathParameters` when present, else extracted from the raw path when it
contains "/items/", then route on truthiness of `store`, then on
"/items" occurring in the route key or path, else 404. -/
def apiHandler (table : List InvItem) (event : ApiEvent) : ApiResponse :=
  let path := event.rawPath
  let route_key := event.routeKey
  let path_params := event.pathParameters.getD []
  let store1 : Option String :=
    if !path_params.isEmpty && ((path_params.lookup "store").isSome) then
      path_params.lookup "store"
    else none
  let store2 : Option String :=
    if pyTruthyStr store1 then store1
    else if strContains path "/items/" then
      let parts := pySplitSlash path
      if parts.length ≥ 3 then some ((parts.getLast?).getD "") else store1
    else store1
  if pyTruthyStr store2 then get_items_by_store table (store2.getD "")
  else if strContains route_key "/items" || strContains path "/items" then get_all_items table
  else { statusCode := 404, body := .error ("Ruta no encontrada: " ++ path) }

/- ===================================================================
   infra/deploy.py
   =================================================================== -/

/-- Fixed table name `TABLE_NAME = "Inventory"`. -/
def TABLE_NAME : String := "Inventory"

/-- `LAMBDA_LOAD_NAME = "load_inventory"`. -/
def LAMBDA_LOAD_NAME : String := "load_inventory"

/-- `LAMBDA_API_NAME = "get_inventory_api"`. -/
def LAMBDA_API_NAME : String := "get_inventory_api"

/-- `LAMBDA_NOTIFY_NAME = "notify_low_stock"`. -/
def LAMBDA_NOTIFY_NAME : String := "notify_low_stock"

/-- `SNS_TOPIC_NAME = "low-stock-inventory-main"`. -/
def SNS_TOPIC_NAME : String := "low-stock-inventory-main"

/-- `BUCKET_UPLOADS = f"inventory-uploads-\x7bSUFFIX\x7d"`. -/
def bucketUploadsName (suffix : String) : String := "inventory-uploads-" ++ suffix

/-- `BUCKET_WEB = f"inventory-web-\x7bSUFFIX\x7d"`. -/
def bucketWebName (suffix : String) : String := "inventory-web-" ++ suffix

/-- `IAM_ROLE_LAMBDA = f"lambda-inventory-role-\x7bSUFFIX\x7d"`. -/
def iamRoleName (suffix : String) : String := "lambda-inventory-role-" ++ suffix

/-- Outcome of one idempotent creation step of deploy.py, as seen at the
call site in `main()` after the creator has done its own error handling:
the resource was created fresh, an existing resource was adopted (the
benign "already exists / in conflict" path), or the creator re-raised an
error it did not recognise as benign. -/
inductive CreateOutcome (α : Type) where
  | created (a : α)
  | alreadyExists (a : α)
  | failed (err : String)
  deriving Repr, DecidableEq

/-- What a creator returns to `main()`: the identity on success either
way, the raised exception otherwise. -/
def CreateOutcome.toExcept : CreateOutcome α → Except String α
  | created a => .ok a
  | alreadyExists a => .ok a
  | failed e => .error e

/-- The step did not raise. -/
def CreateOutcome.isOk : CreateOutcome α → Bool
  | created _ => true
  | alreadyExists _ => true
  | failed _ => false

/-- The provider-determined outcome of each creation step run by
`main()` of deploy.py, in its order: `create_s3_buckets`,
`create_dynamodb_table` (table ARN), `create_iam_role` (role ARN),
`create_sns_topic` (topic ARN), three `create_lambda` calls (function
ARNs), `add_s3_trigger_to_lambda`, `add_stream_trigger_to_lambda`,
`create_api_gateway` (api id and endpoint), `upload_web_content`
(web URL). -/
structure DeployEnv where
  buckets : CreateOutcome Unit
  table : CreateOutcome String
  role : CreateOutcome String
  topic : CreateOutcome String
  lambdaLoad : CreateOutcome String
  lambdaApi : CreateOutcome String
  lambdaNotify : CreateOutcome String
  s3Trigger : CreateOutcome Unit
  streamTrigger : CreateOutcome Unit
  api : CreateOutcome (String × String)
  web : CreateOutcome String

/-- The deployment record written to `infra/deployment.json`. -/
structure DeployRecord where
  deployment_time : String
  region : String
  suffix : String
  bucket_uploads : String
  bucket_web : String
  table_name : String
  lambda_load : String
  lambda_api : String
  lambda_notify : String
  api_id : String
  api_endpoint : String
  web_url : String
  sns_topic_arn : String
  iam_role : String
  deriving Repr, DecidableEq

/-- All eleven creation steps returned success or "already exists". -/
def allStepsOk (env : DeployEnv) : Bool :=
  env.buckets.isOk && env.table.isOk && env.role.isOk && env.topic.isOk
    && env.lambdaLoad.isOk && env.lambdaApi.isOk && env.lambdaNotify.isOk
    && env.s3Trigger.isOk && env.streamTrigger.isOk && env.api.isOk && env.web.isOk

/-- `main()` of deploy.py: the `try` block runs the creation steps in
order; the first exception aborts the run (`except` prints and
`sys.exit(1)`, modelled as exit code 1 with no record); if every step
succeeds the record is assembled from the steps' outputs and written.
Returns the written record (if any) and the exit code. -/
def deployMain (region suffix now : String) (env : DeployEnv) : Option DeployRecord × Nat :=
  match env.buckets.toExcept with
  | .error _ => (none, 1)
  | .ok _ =>
  match env.table.toExcept with
  | .error _ => (none, 1)
  | .ok _tableArn =>
  match env.role.toExcept with
  | .error _ => (none, 1)
  | .ok _roleArn =>
  match env.topic.toExcept with
  | .error _ => (none, 1)
  | .ok topicArn =>
  match env.lambdaLoad.toExcept with
  | .error _ => (none, 1)
  | .ok _ =>
  match env.lambdaApi.toExcept with
  | .error _ => (none, 1)
  | .ok _ =>
  match env.lambdaNotify.toExcept with
  | .error _ => (none, 1)
  | .ok _ =>
  match env.s3Trigger.toExcept with
  | .error _ => (none, 1)
  | .ok _ =>
  match env.streamTrigger.toExcept with
  | .error _ => (none, 1)
  | .ok _ =>
  match env.api.toExcept with
  | .error _ => (none, 1)
  | .ok apiPair =>
  match env.web.toExcept with
  | .error _ => (none, 1)
  | .ok webUrl =>
    (some
      { deployment_time := now
        region := region
        suffix := suffix
        bucket_uploads := bucketUploadsName suffix
        bucket_web := bucketWebName suffix
        table_name := TABLE_NAME
        lambda_load := LAMBDA_LOAD_NAME
        lambda_api := LAMBDA_API_NAME
        lambda_notify := LAMBDA_NOTIFY_NAME
        api_id := apiPair.1
        api_endpoint := apiPair.2
        web_url := webUrl
        sns_topic_arn := topicArn
        iam_role := iamRoleName suffix }, 0)

/- ===================================================================
   infra/destroy.py
   =================================================================== -/

/-- One reference deleted from a versioned bucket:
`\x7b"Key": ..., "VersionId": ...\x7d`. -/
structure ObjectRef where
  key : String
  versionId : String
  deriving Repr, DecidableEq

/-- The batching of `for i in range(0, len(all_deletes), 1000):
batch = all_deletes[i:i+1000]`: successive slices of at most 1000
elements. -/
def chunks1000 : List α → List (List α)
  | [] => []
  | a :: l => ((a :: l).take 1000) :: chunks1000 ((a :: l).drop 1000)
termination_by l => l.length
decreasing_by
  simp only [List.length_drop, List.length_cons]
  omega

/-- One page returned by the `list_object_versions` paginator: its
`Versions` entries and its `DeleteMarkers` entries. -/
structure VersionPage where
  versions : List ObjectRef
  deleteMarkers : List ObjectRef
  deriving Repr, DecidableEq

/-- The page loop of `empty_s3_bucket`: `objects_to_delete` collects every
version across pages, `delete_markers` every delete-marker. -/
def collectVersions (pages : List VersionPage) : List ObjectRef × List ObjectRef :=
  pages.foldl (fun acc p => (acc.1 ++ p.versions, acc.2 ++ p.deleteMarkers)) ([], [])

/-- `empty_s3_bucket(bucket_name)`, as the list of `delete_objects` calls
it issues (each call carrying its batch of references):
`all_deletes = objects_to_delete + delete_markers`, then batches of at
most 1000 (the `if batch:` guard never fires on an empty slice because
the range step equals the slice width). -/
def empty_s3_bucket (pages : List VersionPage) : List (List ObjectRef) :=
  let collected := collectVersions pages
  let all_deletes := collected.1 ++ collected.2
  chunks1000 all_deletes

/-- One step of `main()` of destroy.py, as a trace action. -/
inductive DAction where
  | deleteRecordFile
  | deleteLambda (name : String)
  | deleteApi (apiId : String)
  | deleteTable (name : String)
  | emptyBucket (name : String)
  | deleteBucket (name : String)
  | deleteRole (name : String)
  | deleteLowStockTopics
  deriving Repr, DecidableEq

/-- The action issues deletions against cloud resources (functions, API,
table, buckets and their contents, role, topics); only the local record
file deletion is not one. -/
def DAction.isResourceDeletion : DAction → Bool
  | deleteRecordFile => false
  | _ => true

/-- `response = input(...).strip().lower(); if response != "sí":` — the
confirmation gate of destroy.py. -/
def confirmAccepted (resp : String) : Bool :=
  pyLower (pyStrip resp) == "sí"

/-- The body of the `try` block of `main()` of destroy.py once the user
has confirmed, in source order: record file first, then the three
Lambdas, the API, the table, empty+delete of each bucket, the role, the
low-stock topics. -/
def destroySequence (cfg : DeployRecord) : List DAction :=
  [ DAction.deleteRecordFile,
    DAction.deleteLambda cfg.lambda_load,
    DAction.deleteLambda cfg.lambda_api,
    DAction.deleteLambda cfg.lambda_notify,
    DAction.deleteApi cfg.api_id,
    DAction.deleteTable cfg.table_name,
    DAction.emptyBucket cfg.bucket_uploads,
    DAction.deleteBucket cfg.bucket_uploads,
    DAction.emptyBucket cfg.bucket_web,
    DAction.deleteBucket cfg.bucket_web,
    DAction.deleteRole cfg.iam_role,
    DAction.deleteLowStockTopics ]

/-- `main()` of destroy.py as the trace of actions it attempts: nothing
unless the user typed the confirmation word. -/
def destroyMain (resp : String) (cfg : DeployRecord) : List DAction :=
  if confirmAccepted resp then destroySequence cfg else []

/-- Result of one provider delete call, as classified by the `except
ClientError` handlers of destroy.py: success, the per-kind "not found"
error code, or any other client error. -/
inductive DelResult where
  | ok
  | notFound
  | otherError (msg : String)
  deriving Repr, DecidableEq

/-- How a delete step reports the call: the success print, the benign
"no existe" info print, a logged error print, or nothing (a bare
`except: pass`).  In every case the step returns instead of raising. -/
inductive StepOutcome where
  | deleted
  | notFoundInfo
  | errorLogged (msg : String)
  | silenced
  deriving Repr, DecidableEq

/-- `delete_lambda`: `ResourceNotFoundException` prints "no existe",
other client errors print "✗ Error" — both return normally. -/
def delete_lambda (res : DelResult) : StepOutcome :=
  match res with
  | .ok => .deleted
  | .notFound => .notFoundInfo
  | .otherError m => .errorLogged m

/-- `delete_api_gateway`: `NotFoundException` prints "no existe", other
client errors are logged. -/
def delete_api_gateway (res : DelResult) : StepOutcome :=
  match res with
  | .ok => .deleted
  | .notFound => .notFoundInfo
  | .otherError m => .errorLogged m

/-- `delete_dynamodb_table`: `ResourceNotFoundException` prints
"no existe", other client errors are logged. -/
def delete_dynamodb_table (res : DelResult) : StepOutcome :=
  match res with
  | .ok => .deleted
  | .notFound => .notFoundInfo
  | .otherError m => .errorLogged m

/-- `delete_s3_bucket`: `NoSuchBucket` prints "no existe", other client
errors are logged "(continuando...)". -/
def delete_s3_bucket (res : DelResult) : StepOutcome :=
  match res with
  | .ok => .deleted
  | .notFound => .notFoundInfo
  | .otherError m => .errorLogged m

/-- The error handling around the body of `empty_s3_bucket`:
`NoSuchBucket` prints "no existe", any other error is logged
"(intentando continuar)". -/
def empty_s3_bucket_outcome (res : DelResult) : StepOutcome :=
  match res with
  | .ok => .deleted
  | .notFound => .notFoundInfo
  | .otherError m => .errorLogged m

/-- `delete_iam_role`: `NoSuchEntity` prints "no existe", other client
errors are logged. -/
def delete_iam_role (res : DelResult) : StepOutcome :=
  match res with
  | .ok => .deleted
  | .notFound => .notFoundInfo
  | .otherError m => .errorLogged m

/-- The per-topic `sns_client.delete_topic` call inside
`delete_all_low_stock_topics`: its `except ClientError` has no
"not found" special case — every client error, a not-found included,
prints "⚠ Error eliminando" and the loop continues. -/
def delete_topic_call (res : DelResult) : StepOutcome :=
  match res with
  | .ok => .deleted
  | .notFound => .errorLogged "NotFound"
  | .otherError m => .errorLogged m

/-- `delete_all_low_stock_topics()`: lists all topics, keeps those whose
ARN contains "low-stock", and deletes each (after unsubscribing, whose
errors are silently passed), logging per-topic failures.  Input pairs
each listed topic ARN with the provider outcome of deleting it. -/
def delete_all_low_stock_topics (topics : List (String × DelResult)) :
    List (String × StepOutcome) :=
  (topics.filter (fun t => strContains t.1 "low-stock")).map
    (fun t => (t.1, delete_topic_call t.2))

/-- Provider outcomes for a whole teardown run: the delete result keyed
by resource name/id, plus the listed topics with their per-topic delete
results. -/
structure TeardownEnv where
  f : String → DelResult
  recordFile : DelResult
  topics : List (String × DelResult)

/-- Running one destroy step against the provider outcomes: the record
file unlink is wrapped in a bare `except: pass`; each delete helper
classifies its own call; the topics step yields one outcome per matched
topic. -/
def runDestroyStep (env : TeardownEnv) : DAction → List StepOutcome
  | .deleteRecordFile =>
      [match env.recordFile with
       | .ok => .deleted
       | _ => .silenced]
  | .deleteLambda n => [delete_lambda (env.f n)]
  | .deleteApi i => [delete_api_gateway (env.f i)]
  | .deleteTable n => [delete_dynamodb_table (env.f n)]
  | .emptyBucket n => [empty_s3_bucket_outcome (env.f n)]
  | .deleteBucket n => [delete_s3_bucket (env.f n)]
  | .deleteRole n => [delete_iam_role (env.f n)]
  | .deleteLowStockTopics => (delete_all_low_stock_topics env.topics).map Prod.snd

/-- A confirmed teardown run: every step of the sequence is executed and
paired with its outcomes; no provider outcome stops the walk. -/
def destroyExec (cfg : DeployRecord) (env : TeardownEnv) : List (DAction × List StepOutcome) :=
  (destroySequence cfg).map (fun a => (a, runDestroyStep env a))

/- ===================================================================
   infra/validate.py
   =================================================================== -/

/-- Result of one provider describe/get call issued by a validate check,
as its `except ClientError` sees it. -/
inductive ProbeResult (α : Type) where
  | ok (a : α)
  | clientError (msg : String)
  deriving Repr, DecidableEq

/-- Salient table fields reported by `check_dynamodb`. -/
structure TableDesc where
  status : String
  itemCount : Nat
  streamViewType : Option String
  deriving Repr, DecidableEq

/-- Salient function fields reported by `check_lambdas`. -/
structure LambdaDesc where
  runtime : String
  memory : Nat
  timeout : Nat
  deriving Repr, DecidableEq

/-- The provider responses a `validate` run observes, one per check (the
report lines below keep the existence-level structure of the prints;
secondary attribute lines are elided). -/
structure ValidateEnv where
  s3Uploads : ProbeResult Unit
  s3Web : ProbeResult Unit
  dynamo : ProbeResult TableDesc
  lamLoad : ProbeResult LambdaDesc
  lamApi : ProbeResult LambdaDesc
  lamNotify : ProbeResult LambdaDesc
  apigw : ProbeResult (String × List String)
  sns : ProbeResult (List String)
  iam : ProbeResult (List String)
  apiProbe : Except String (List InvItem)

/-- `check_s3_buckets` for one bucket: `head_bucket` succeeding prints
"existe"; any ClientError prints "no existe o inaccesible".  Never
raises. -/
def check_s3_bucket (name : String) (res : ProbeResult Unit) : List String :=
  match res with
  | .ok _ => ["✓ Bucket \x27" ++ name ++ "\x27 existe"]
  | .clientError _ => ["✗ Bucket \x27" ++ name ++ "\x27 no existe o inaccesible"]

/-- `check_dynamodb`: `describe_table` succeeding prints existence and
status; ClientError prints "no existe".  Never raises. -/
def check_dynamodb (name : String) (res : ProbeResult TableDesc) : List String :=
  match res with
  | .ok t => ["✓ Tabla \x27" ++ name ++ "\x27 existe", "✓ Estado: " ++ t.status]
  | .clientError _ => ["✗ Tabla \x27" ++ name ++ "\x27 no existe"]

/-- `check_lambdas` for one function: `get_function` succeeding prints
existence and configuration; ClientError prints "no existe". -/
def check_lambda (name : String) (res : ProbeResult LambdaDesc) : List String :=
  match res with
  | .ok d => ["✓ Lambda \x27" ++ name ++ "\x27 existe", "Runtime: " ++ d.runtime]
  | .clientError _ => ["✗ Lambda \x27" ++ name ++ "\x27 no existe"]

/-- `check_api_gateway`: `get_api` succeeding prints the API name and its
GET routes; ClientError prints "no existe o inaccesible". -/
def check_api_gateway (res : ProbeResult (String × List String)) : List String :=
  match res with
  | .ok p => ("✓ API \x27" ++ p.1 ++ "\x27 existe") ::
      (p.2.filter (fun r => strContains r "GET")).map (fun r => "✓ Ruta: " ++ r)
  | .clientError e => ["✗ API Gateway no existe o inaccesible: " ++ e]

/-- `check_sns`: `get_topic_attributes` succeeding prints existence and
the subscriptions; ClientError prints "no existe". -/
def check_sns (res : ProbeResult (List String)) : List String :=
  match res with
  | .ok subs => "✓ Tema SNS existe" :: subs.map (fun s => "Email: " ++ s)
  | .clientError _ => ["✗ Tema SNS no existe"]

/-- `check_iam`: `get_role` succeeding prints existence and the inline
policy names; ClientError prints "no existe". -/
def check_iam (name : String) (res : ProbeResult (List String)) : List String :=
  match res with
  | .ok ps => ("✓ Rol IAM \x27" ++ name ++ "\x27 existe") :: ps.map (fun p => "✓ Política: " ++ p)
  | .clientError _ => ["✗ Rol IAM \x27" ++ name ++ "\x27 no existe"]

/-- `test_api_endpoint`: the live GET against the collection route; its
`except Exception` turns any failure into a warning print. -/
def test_api_endpoint (res : Except String (List InvItem)) : List String :=
  match res with
  | .ok items => ["✓ API respondió correctamente",
      "✓ Items en BD: " ++ toString items.length]
  | .error e => ["⚠ Error al probar API: " ++ e]

/-- `main()` of validate.py: `load_config()` returns `none` when
`deployment.json` is absent, and `main` exits 1 then; otherwise all
checks run (each swallowing its own provider errors) and `main` falls
off the end, exiting 0.  Returns the report lines and the exit code. -/
def validateMain (cfg : Option DeployRecord) (env : ValidateEnv) : List String × Nat :=
  match cfg with
  | none => (["✗ deployment.json no encontrado. ¿Se ejecutó deploy.py?"], 1)
  | some c =>
      (check_s3_bucket c.bucket_uploads env.s3Uploads
        ++ check_s3_bucket c.bucket_web env.s3Web
        ++ check_dynamodb c.table_name env.dynamo
        ++ check_lambda c.lambda_load env.lamLoad
        ++ check_lambda c.lambda_api env.lamApi
        ++ check_lambda c.lambda_notify env.lamNotify
        ++ check_api_gateway env.apigw
        ++ check_sns env.sns
        ++ check_iam c.iam_role env.iam
        ++ test_api_endpoint env.apiProbe, 0)

/- ===================================================================
   Concrete sample data (used to instantiate theorems with hypotheses)
   =================================================================== -/

/-- A concrete deployment record: exactly what `deployMain` writes for
region us-east-1, suffix inventory-main and the all-success environment
`deployEnvAllOk` below. -/
def sampleRecord : DeployRecord :=
  { deployment_time := "t0"
    region := "us-east-1"
    suffix := "inventory-main"
    bucket_uploads := "inventory-uploads-inventory-main"
    bucket_web := "inventory-web-inventory-main"
    table_name := "Inventory"
    lambda_load := "load_inventory"
    lambda_api := "get_inventory_api"
    lambda_notify := "notify_low_stock"
    api_id := "api123"
    api_endpoint := "https://api123.execute-api.us-east-1.amazonaws.com"
    web_url := "http://inventory-web-inventory-main.s3-website-us-east-1.amazonaws.com"
    sns_topic_arn := "arn:aws:sns:us-east-1:123456789012:low-stock-inventory-main"
    iam_role := "lambda-inventory-role-inventory-main" }

/-- A deploy run in which every creation step succeeds (the role step by
adopting the pre-existing LabRole). -/
def deployEnvAllOk : DeployEnv :=
  { buckets := .created ()
    table := .created "arn:aws:dynamodb:us-east-1:123456789012:table/Inventory"
    role := .alreadyExists "arn:aws:iam::123456789012:role/LabRole"
    topic := .created "arn:aws:sns:us-east-1:123456789012:low-stock-inventory-main"
    lambdaLoad := .created "arn:aws:lambda:us-east-1:123456789012:function:load_inventory"
    lambdaApi := .created "arn:aws:lambda:us-east-1:123456789012:function:get_inventory_api"
    lambdaNotify := .created "arn:aws:lambda:us-east-1:123456789012:function:notify_low_stock"
    s3Trigger := .created ()
    streamTrigger := .created ()
    api := .created ("api123", "https://api123.execute-api.us-east-1.amazonaws.com")
    web := .created "http://inventory-web-inventory-main.s3-website-us-east-1.amazonaws.com" }

/-- The identity outputs a creation step handed back to `main()` (empty
when the step failed). -/
def CreateOutcome.outputs : CreateOutcome String → List String
  | created a => [a]
  | alreadyExists a => [a]
  | failed _ => []

/-- Every identifier string produced (created or confirmed to exist) by
the creation steps of a deploy run: the table, role, topic and function
ARNs, the api id and endpoint, and the web URL. -/
def runOutputs (env : DeployEnv) : List String :=
  env.table.outputs ++ env.role.outputs ++ env.topic.outputs
    ++ env.lambdaLoad.outputs ++ env.lambdaApi.outputs ++ env.lambdaNotify.outputs
    ++ (match env.api with
        | .created p => [p.1, p.2]
        | .alreadyExists p => [p.1, p.2]
        | .failed _ => [])
    ++ env.web.outputs

/- ===================================================================
   Helper lemmas
   =================================================================== -/

lemma notifyRecord_eq_filter_map (r : StreamRecord) :
    notifyRecord r = if lowStockTrigger r then [mkAlert r.newImage] else [] := by
  unfold notifyRecord lowStockTrigger
  by_cases h1 : r.eventName = "INSERT" <;>
    by_cases h2 : r.eventName = "MODIFY" <;>
      by_cases h3 : imageCount r.newImage < LOW_STOCK_THRESHOLD <;>
        simp [h1, h2, h3]

lemma notifyHandler_published (records : List StreamRecord) :
    (notifyHandler records).published
      = (records.filter lowStockTrigger).map (fun r => mkAlert r.newImage) := by
  unfold notifyHandler
  simp only
  induction records with
  | nil => rfl
  | cons r rs ih =>
      simp only [List.flatMap_cons, List.filter_cons]
      rw [notifyRecord_eq_filter_map]
      by_cases h : lowStockTrigger r <;> simp [h, ih]

lemma loadRows_go (rows : List CsvRow) (acc : List InvItem) (n : Nat) :
    rows.foldl
        (fun st r =>
          match parseRow r with
          | some it => (st.1 ++ [it], st.2 + 1)
          | none => st)
        (acc, n)
      = (acc ++ rows.filterMap parseRow, n + (rows.filterMap parseRow).length) := by
  induction rows generalizing acc n with
  | nil => simp
  | cons r rs ih =>
      simp only [List.foldl_cons, List.filterMap_cons]
      cases hp : parseRow r with
      | none => simpa [hp] using ih acc n
      | some it =>
          rw [ih (acc ++ [it]) (n + 1)]
          simp [List.append_assoc]
          omega

lemma loadRows_spec (rows : List CsvRow) :
    loadRows rows = (rows.filterMap parseRow, (rows.filterMap parseRow).length) := by
  unfold loadRows
  simpa using loadRows_go rows [] 0

lemma chunks1000_flatten (l : List α) : (chunks1000 l).flatten = l := by
  induction l using chunks1000.induct with
  | case1 => simp [chunks1000]
  | case2 a l ih =>
      rw [chunks1000, List.flatten_cons, ih, List.take_append_drop]

lemma chunks1000_length (l : List α) :
    (chunks1000 l).length = (l.length + 999) / 1000 := by
  induction l using chunks1000.induct with
  | case1 => simp [chunks1000]
  | case2 a l ih =>
      rw [chunks1000, List.length_cons, ih, List.length_drop]
      simp only [List.length_cons]
      omega

lemma chunks1000_mem {l : List α} {b : List α} (hb : b ∈ chunks1000 l) :
    b.length ≤ 1000 ∧ b ≠ [] := by
  induction l using chunks1000.induct with
  | case1 => simp [chunks1000] at hb
  | case2 a l ih =>
      rw [chunks1000] at hb
      rcases List.mem_cons.mp hb with h | h
      · subst h
        refine ⟨by simp, by simp⟩
      · exact ih h

lemma CreateOutcome.isOk_of_toExcept_ok {o : CreateOutcome α} {a : α}
    (h : o.toExcept = Except.ok a) : o.isOk = true := by
  cases o <;> simp_all [toExcept, isOk]

lemma CreateOutcome.isOk_false_of_toExcept_error {o : CreateOutcome α} {e : String}
    (h : o.toExcept = Except.error e) : o.isOk = false := by
  cases o <;> simp_all [toExcept, isOk]

/- ===================================================================
   Claim theorems
   =================================================================== -/

/-- C3: for every batch of change-stream records, the notification
handler publishes exactly one message per INSERT or MODIFY record whose
new Count (as extracted by the handler) is below 50, in batch order, and
zero messages for REMOVE records or records with Count at or above 50 —
the published list is exactly the map of the alert over the filter of
qualifying records, and the reported notification count equals that
filter's size. -/
theorem notify_publishes_exactly_low_stock (records : List StreamRecord) :
    (notifyHandler records).published
        = (records.filter lowStockTrigger).map (fun r => mkAlert r.newImage)
      ∧ (notifyHandler records).notifiedCount
        = (records.filter lowStockTrigger).length := by
  refine ⟨notifyHandler_published records, ?_⟩
  have h : (notifyHandler records).notifiedCount
      = (notifyHandler records).published.length := rfl
  rw [h, notifyHandler_published, List.length_map]

/-- C10: an INSERT or MODIFY stream record whose NewImage lacks a Count
attribute is treated as Count = 0, which is below the threshold 50, so
the handler publishes one low-stock notification for it. -/
theorem notify_missing_count_publishes (st it : String) :
    ((notifyHandler [⟨"INSERT", ⟨some st, some it, none⟩⟩]).published
        = [mkAlert ⟨some st, some it, none⟩])
      ∧ ((notifyHandler [⟨"MODIFY", ⟨some st, some it, none⟩⟩]).published
        = [mkAlert ⟨some st, some it, none⟩])
      ∧ imageCount ⟨some st, some it, none⟩ = 0
      ∧ (0 : Int) < LOW_STOCK_THRESHOLD :=
  ⟨rfl, rfl, rfl, by decide⟩

/-- C6: for any single uploaded CSV, the ingestion handler inserts
exactly the rows that parse (valid Store/Item fields, numeric Count),
skips each malformed row without failing the batch, returns 200, and
reports the number of successful insertions (so 3 valid rows plus 1
malformed row reports 3). -/
theorem load_inventory_row_tolerance (rows : List CsvRow) :
    loadHandler [rows]
      = ({ statusCode := 200,
           body := LoadBody.success "CSV procesado exitosamente"
             (rows.filterMap parseRow).length },
         rows.filterMap parseRow) := by
  unfold loadHandler
  rw [List.foldl_cons, List.foldl_nil, loadRows_spec]
  simp

/-- C9: on an event whose Records list is empty, the ingestion handler
returns a statusCode-500 error response (the success path references the
per-record counter `items_inserted`, assigned only inside the loop, so
the reference raises NameError), not a 200 success. -/
theorem load_inventory_empty_batch :
    loadHandler []
      = ({ statusCode := 500,
           body := LoadBody.failure "name \x27items_inserted\x27 is not defined" },
         []) := rfl

/-- C7: for every table state, GET /items returns all records with
`count` equal to the total number of records; GET /items/Berlin returns
exactly the records whose Store is Berlin with `count` equal to that
subset's size; and a path matching neither route yields a JSON 404 error
body. -/
theorem api_routing (table : List InvItem) :
    (apiHandler table { rawPath := "/items", routeKey := "GET /items", pathParameters := none }
        = ⟨200, ApiBody.allItems table table.length⟩)
      ∧ (apiHandler table
            { rawPath := "/items/Berlin", routeKey := "GET /items/\x7bstore\x7d",
              pathParameters := some [("store", "Berlin")] }
          = ⟨200, ApiBody.storeItems "Berlin"
              (table.filter (fun it => it.store == "Berlin"))
              (table.filter (fun it => it.store == "Berlin")).length⟩)
      ∧ (apiHandler table (ApiEvent.mk "/health" "GET /health" none)
          = ⟨404, ApiBody.error "Ruta no encontrada: /health"⟩) :=
  ⟨rfl, rfl, rfl⟩

/-- C8: the validate command exits 1 exactly when the deployment record
is absent, and 0 whenever it exists — whatever the outcome of each
individual resource check or of the live API probe. -/
theorem validate_exit_codes (cfg : Option DeployRecord) (env : ValidateEnv) :
    (validateMain cfg env).2 = if cfg.isSome then 0 else 1 := by
  cases cfg <;> rfl

/-- C1: once the user confirms the destroy prompt, the deployment record
file is the very first deletion in the trace, and every cloud-resource
deletion (function, API, table, bucket, role, topic) occurs at a
strictly later position — a deleteRecordFile action precedes any
resource-deleting action. -/
theorem destroy_deletes_record_first (resp : String) (cfg : DeployRecord)
    (h : confirmAccepted resp = true) :
    (destroyMain resp cfg).head? = some DAction.deleteRecordFile
      ∧ ∀ i, ((destroyMain resp cfg).getD i DAction.deleteRecordFile).isResourceDeletion
            = true →
          ∃ j, j < i ∧ (destroyMain resp cfg).getD j DAction.deleteRecordFile
            = DAction.deleteRecordFile := by
  have hd : destroyMain resp cfg = destroySequence cfg := by
    simp [destroyMain, h]
  constructor
  · rw [hd]; rfl
  · intro i hi
    match i with
    | 0 =>
        rw [hd] at hi
        simp [destroySequence, DAction.isResourceDeletion] at hi
    | (n + 1) =>
        refine ⟨0, Nat.succ_pos n, ?_⟩
        rw [hd]; rfl

/-- Witness for C1: the confirmed run on a concrete record. -/
theorem destroy_deletes_record_first_case :
    confirmAccepted "sí" = true
      ∧ ((destroyMain "sí" sampleRecord).head? = some DAction.deleteRecordFile
        ∧ ∀ i, ((destroyMain "sí" sampleRecord).getD i
              DAction.deleteRecordFile).isResourceDeletion = true →
            ∃ j, j < i ∧ (destroyMain "sí" sampleRecord).getD j DAction.deleteRecordFile
              = DAction.deleteRecordFile) :=
  ⟨by decide, destroy_deletes_record_first "sí" sampleRecord (by decide)⟩

/-- C4: emptying a versioned bucket deletes every collected object
version and every delete-marker (their concatenation, versions first),
in batched delete calls of at most 1000 entries each, using exactly
ceil((N+M)/1000) calls — written (N+M+999)/1000 in natural division, so
1500 total entries take 2 calls — and in the teardown sequence the
emptying of each bucket is issued immediately before that bucket's
delete call. -/
theorem bucket_emptying_complete (pages : List VersionPage) (cfg : DeployRecord) :
    ((empty_s3_bucket pages).flatten
        = (collectVersions pages).1 ++ (collectVersions pages).2)
      ∧ ((empty_s3_bucket pages).all
          (fun b => decide (b.length ≤ 1000) && !b.isEmpty) = true)
      ∧ ((empty_s3_bucket pages).length
          = ((collectVersions pages).1.length + (collectVersions pages).2.length + 999)
            / 1000)
      ∧ (∃ l1 l2, destroySequence cfg
          = l1 ++ DAction.emptyBucket cfg.bucket_uploads
              :: DAction.deleteBucket cfg.bucket_uploads :: l2)
      ∧ (∃ l3 l4, destroySequence cfg
          = l3 ++ DAction.emptyBucket cfg.bucket_web
              :: DAction.deleteBucket cfg.bucket_web :: l4) := by
  refine ⟨?_, ?_, ?_, ?_, ?_⟩
  · show (chunks1000 ((collectVersions pages).1 ++ (collectVersions pages).2)).flatten = _
    exact chunks1000_flatten _
  · rw [List.all_eq_true]
    intro b hb
    obtain ⟨hlen, hne⟩ := chunks1000_mem hb
    simp [hlen, hne]
  · show (chunks1000 ((collectVersions pages).1 ++ (collectVersions pages).2)).length = _
    rw [chunks1000_length, List.length_append]
  · exact ⟨[DAction.deleteRecordFile, DAction.deleteLambda cfg.lambda_load,
      DAction.deleteLambda cfg.lambda_api, DAction.deleteLambda cfg.lambda_notify,
      DAction.deleteApi cfg.api_id, DAction.deleteTable cfg.table_name],
      [DAction.emptyBucket cfg.bucket_web, DAction.deleteBucket cfg.bucket_web,
        DAction.deleteRole cfg.iam_role, DAction.deleteLowStockTopics], rfl⟩
  · exact ⟨[DAction.deleteRecordFile, DAction.deleteLambda cfg.lambda_load,
      DAction.deleteLambda cfg.lambda_api, DAction.deleteLambda cfg.lambda_notify,
      DAction.deleteApi cfg.api_id, DAction.deleteTable cfg.table_name,
      DAction.emptyBucket cfg.bucket_uploads, DAction.deleteBucket cfg.bucket_uploads],
      [DAction.deleteRole cfg.iam_role, DAction.deleteLowStockTopics], rfl⟩

/-- C5 (amended): the delete steps for functions, API, table, buckets
(including emptying) and role treat the provider "not found" error as a
benign info outcome and log any other client error; the per-topic delete
inside the topics step logs every client error — a "not found" included
— as a warning instead of treating it as success; and in every case the
teardown run executes each step of the sequence and continues to the
next one regardless of the per-step provider results. -/
theorem teardown_continues_past_errors (m : String) (cfg : DeployRecord)
    (env : TeardownEnv) :
    (delete_lambda DelResult.notFound = StepOutcome.notFoundInfo
        ∧ delete_lambda (DelResult.otherError m) = StepOutcome.errorLogged m)
      ∧ (delete_api_gateway DelResult.notFound = StepOutcome.notFoundInfo
        ∧ delete_api_gateway (DelResult.otherError m) = StepOutcome.errorLogged m)
      ∧ (delete_dynamodb_table DelResult.notFound = StepOutcome.notFoundInfo
        ∧ delete_dynamodb_table (DelResult.otherError m) = StepOutcome.errorLogged m)
      ∧ (empty_s3_bucket_outcome DelResult.notFound = StepOutcome.notFoundInfo
        ∧ empty_s3_bucket_outcome (DelResult.otherError m) = StepOutcome.errorLogged m)
      ∧ (delete_s3_bucket DelResult.notFound = StepOutcome.notFoundInfo
        ∧ delete_s3_bucket (DelResult.otherError m) = StepOutcome.errorLogged m)
      ∧ (delete_iam_role DelResult.notFound = StepOutcome.notFoundInfo
        ∧ delete_iam_role (DelResult.otherError m) = StepOutcome.errorLogged m)
      ∧ (delete_topic_call DelResult.notFound = StepOutcome.errorLogged "NotFound"
        ∧ delete_topic_call (DelResult.otherError m) = StepOutcome.errorLogged m)
      ∧ ((destroyExec cfg env).map Prod.fst = destroySequence cfg) := by
  refine ⟨⟨rfl, rfl⟩, ⟨rfl, rfl⟩, ⟨rfl, rfl⟩, ⟨rfl, rfl⟩, ⟨rfl, rfl⟩, ⟨rfl, rfl⟩,
    ⟨rfl, rfl⟩, ?_⟩
  unfold destroyExec
  rw [List.map_map]
  exact List.map_id _

/-- C5 counterexample: a low-stock topic that is already gone is not
treated as success by the topics delete step — its "not found" client
error is logged as an error outcome, unlike the other resource kinds. -/
theorem topic_not_found_logged_as_error :
    delete_all_low_stock_topics
        [("arn:aws:sns:us-east-1:123456789012:low-stock-inventory-main",
          DelResult.notFound)]
      = [("arn:aws:sns:us-east-1:123456789012:low-stock-inventory-main",
          StepOutcome.errorLogged "NotFound")]
      ∧ StepOutcome.errorLogged "NotFound" ≠ StepOutcome.deleted
      ∧ StepOutcome.errorLogged "NotFound" ≠ StepOutcome.notFoundInfo := by
  refine ⟨?_, by decide, by decide⟩
  rfl

/-- C2 (amended): deploy writes the deployment record exactly when every
creation step returned success or "already exists" (the run exits 0
then, and 1 with no record when any step raises a non-benign error);
the run-produced identifiers in a written record — api id, api endpoint,
topic ARN, web URL — are the outputs of the corresponding successful
steps, while the named resources are recorded under their deterministic
suffix-derived names.  In particular the recorded iam_role is always the
suffix-derived role name, independent of the role step's output — so
when the role step adopted the pre-existing LabRole it names a role the
run never created or confirmed (see the counterexample below the
witness). -/
theorem deploy_record_iff_all_steps (region suffix now : String) (env : DeployEnv) :
    ((deployMain region suffix now env).1.isSome = allStepsOk env)
      ∧ ((deployMain region suffix now env).2 = if allStepsOk env then 0 else 1)
      ∧ (∀ r, (deployMain region suffix now env).1 = some r →
          env.api.toExcept = Except.ok (r.api_id, r.api_endpoint)
            ∧ env.topic.toExcept = Except.ok r.sns_topic_arn
            ∧ env.web.toExcept = Except.ok r.web_url
            ∧ r.bucket_uploads = bucketUploadsName suffix
            ∧ r.bucket_web = bucketWebName suffix
            ∧ r.table_name = TABLE_NAME
            ∧ r.lambda_load = LAMBDA_LOAD_NAME
            ∧ r.lambda_api = LAMBDA_API_NAME
            ∧ r.lambda_notify = LAMBDA_NOTIFY_NAME
            ∧ r.iam_role = iamRoleName suffix) := by
  rcases h1 : env.buckets.toExcept with e1 | a1
  · simp [deployMain, allStepsOk, h1, CreateOutcome.isOk_false_of_toExcept_error h1]
  rcases h2 : env.table.toExcept with e2 | a2
  · simp [deployMain, allStepsOk, h1, h2, CreateOutcome.isOk_false_of_toExcept_error h2]
  rcases h3 : env.role.toExcept with e3 | a3
  · simp [deployMain, allStepsOk, h1, h2, h3, CreateOutcome.isOk_false_of_toExcept_error h3]
  rcases h4 : env.topic.toExcept with e4 | a4
  · simp [deployMain, allStepsOk, h1, h2, h3, h4,
      CreateOutcome.isOk_false_of_toExcept_error h4]
  rcases h5 : env.lambdaLoad.toExcept with e5 | a5
  · simp [deployMain, allStepsOk, h1, h2, h3, h4, h5,
      CreateOutcome.isOk_false_of_toExcept_error h5]
  rcases h6 : env.lambdaApi.toExcept with e6 | a6
  · simp [deployMain, allStepsOk, h1, h2, h3, h4, h5, h6,
      CreateOutcome.isOk_false_of_toExcept_error h6]
  rcases h7 : env.lambdaNotify.toExcept with e7 | a7
  · simp [deployMain, allStepsOk, h1, h2, h3, h4, h5, h6, h7,
      CreateOutcome.isOk_false_of_toExcept_error h7]
  rcases h8 : env.s3Trigger.toExcept with e8 | a8
  · simp [deployMain, allStepsOk, h1, h2, h3, h4, h5, h6, h7, h8,
      CreateOutcome.isOk_false_of_toExcept_error h8]
  rcases h9 : env.streamTrigger.toExcept with e9 | a9
  · simp [deployMain, allStepsOk, h1, h2, h3, h4, h5, h6, h7, h8, h9,
      CreateOutcome.isOk_false_of_toExcept_error h9]
  rcases h10 : env.api.toExcept with e10 | a10
  · simp [deployMain, allStepsOk, h1, h2, h3, h4, h5, h6, h7, h8, h9, h10,
      CreateOutcome.isOk_false_of_toExcept_error h10]
  rcases h11 : env.web.toExcept with e11 | a11
  · simp [deployMain, allStepsOk, h1, h2, h3, h4, h5, h6, h7, h8, h9, h10, h11,
      CreateOutcome.isOk_false_of_toExcept_error h11]
  have hOk : allStepsOk env = true := by
    simp [allStepsOk, CreateOutcome.isOk_of_toExcept_ok h1,
      CreateOutcome.isOk_of_toExcept_ok h2, CreateOutcome.isOk_of_toExcept_ok h3,
      CreateOutcome.isOk_of_toExcept_ok h4, CreateOutcome.isOk_of_toExcept_ok h5,
      CreateOutcome.isOk_of_toExcept_ok h6, CreateOutcome.isOk_of_toExcept_ok h7,
      CreateOutcome.isOk_of_toExcept_ok h8, CreateOutcome.isOk_of_toExcept_ok h9,
      CreateOutcome.isOk_of_toExcept_ok h10, CreateOutcome.isOk_of_toExcept_ok h11]
  refine ⟨?_, ?_, ?_⟩
  · simp [deployMain, h1, h2, h3, h4, h5, h6, h7, h8, h9, h10, h11, hOk]
  · simp [deployMain, h1, h2, h3, h4, h5, h6, h7, h8, h9, h10, h11, hOk]
  · intro r hr
    simp only [deployMain, h1, h2, h3, h4, h5, h6, h7, h8, h9, h10, h11,
      Option.some.injEq] at hr
    subst hr
    exact ⟨rfl, rfl, rfl, rfl, rfl, rfl, rfl, rfl, rfl, rfl⟩

/-- Witness for C2: the all-successful run writes exactly the sample
record, whose identifiers come from the steps' outputs. -/
theorem deploy_record_iff_all_steps_case :
    ((deployMain "us-east-1" "inventory-main" "t0" deployEnvAllOk).1.isSome
        = allStepsOk deployEnvAllOk)
      ∧ (deployEnvAllOk.api.toExcept
            = Except.ok (sampleRecord.api_id, sampleRecord.api_endpoint)
          ∧ deployEnvAllOk.topic.toExcept = Except.ok sampleRecord.sns_topic_arn
          ∧ deployEnvAllOk.web.toExcept = Except.ok sampleRecord.web_url
          ∧ sampleRecord.bucket_uploads = bucketUploadsName "inventory-main"
          ∧ sampleRecord.bucket_web = bucketWebName "inventory-main"
          ∧ sampleRecord.table_name = TABLE_NAME
          ∧ sampleRecord.lambda_load = LAMBDA_LOAD_NAME
          ∧ sampleRecord.lambda_api = LAMBDA_API_NAME
          ∧ sampleRecord.lambda_notify = LAMBDA_NOTIFY_NAME
          ∧ sampleRecord.iam_role = iamRoleName "inventory-main") :=
  ⟨(deploy_record_iff_all_steps "us-east-1" "inventory-main" "t0" deployEnvAllOk).1,
    (deploy_record_iff_all_steps "us-east-1" "inventory-main" "t0" deployEnvAllOk).2.2
      sampleRecord (by rfl)⟩

/-- C2 counterexample: in the run where `create_iam_role` adopts the
pre-existing LabRole (its only output is the LabRole ARN), the written
record still stores iam_role = "lambda-inventory-role-" ++ suffix — an
identifier that is none of the identities any creation step of the run
produced, i.e. a role name the run never created or confirmed to
exist. -/
theorem deploy_record_role_counterexample :
    (deployMain "us-east-1" "inventory-main" "t0" deployEnvAllOk).1 = some sampleRecord
      ∧ deployEnvAllOk.role.toExcept
          = Except.ok "arn:aws:iam::123456789012:role/LabRole"
      ∧ sampleRecord.iam_role = "lambda-inventory-role-inventory-main"
      ∧ sampleRecord.iam_role ≠ "arn:aws:iam::123456789012:role/LabRole"
      ∧ sampleRecord.iam_role ∉ runOutputs deployEnvAllOk := by
  refine ⟨rfl, rfl, rfl, by decide, by decide⟩
